import Mathlib

/-!
Verification development for the LA parcel and zoning service.

The Python sources are shallowly embedded: JSON values (as produced by
upstream HTTP responses and consumed by the pure transformation code)
become the inductive type `JVal`; each pure transformation function is
translated into a Lean definition of the same name; network calls become
explicit parameters carrying the upstream response (or its failure).

Modelling conventions, used throughout:
- A Python dict is a `JVal.jobj` association list; lookups take the first
  binding, which agrees with Python dicts (whose keys are distinct).
- Python truthiness is `JVal.truthy`.
- `str(x)` is `JVal.pyStr`.  For lists and dicts, Python renders a bracketed
  representation that can never parse as an integer; the model keeps just
  the opening bracket, which preserves that fact (the representation is
  only ever fed to `int(...)` in this code).
- `int(s)` on an already stripped string is `pyParseInt` (sign, ASCII
  digits, single underscores between digits).  Every `int(...)` call in the
  sources receives an already stripped string, so the additional stripping
  Python performs inside `int` is a no-op on this domain.  Non-ASCII
  decimal digits, accepted by Python, are not modelled; no claim involves
  them.
- String helpers (`strip`, `upper`, `lower`, `title`, `startswith`,
  `endswith`, join) are given explicit executable models `pyStrip`,
  `pyUpper`, `pyLower`, `pyTitle`, `pyStartsWith`, `pyEndsWith`, `pyJoin`
  over ASCII, matching their Python behaviour on the data at hand.
- Places where the Python code would raise on an ill-shaped upstream value
  (for instance calling `.get` on a non-dict, or `.strip()` on a non-string)
  are outside the domain of the claims, which speak about parcel records;
  theorems carry executable shape hypotheses (`rawOk`, `featOk`, `rowOk`)
  delimiting exactly the raise-free domain on which the embedding and the
  Python code agree.
-/

/-- A JSON-like Python value: the payloads flowing through this system. -/
inductive JVal where
  | jnull
  | jbool (b : Bool)
  | jint (n : Int)
  | jstr (s : String)
  | jarr (xs : List JVal)
  | jobj (kvs : List (String × JVal))

/-- Dict lookup: `d.get(k)` without a default, `none` when the key is absent
or the value is not a dict. -/
def JVal.getKey : JVal → String → Option JVal
  | .jobj kvs, k => (kvs.find? (fun p => p.1 == k)).map (fun p => p.2)
  | _, _ => none

/-- Python truthiness of a value. -/
def JVal.truthy : JVal → Bool
  | .jnull => false
  | .jbool b => b
  | .jint n => n != 0
  | .jstr s => !s.isEmpty
  | .jarr xs => !xs.isEmpty
  | .jobj kvs => !kvs.isEmpty

/-- Python `x or y`. -/
def pyOr (a b : JVal) : JVal := if a.truthy then a else b

/-- Python `str(x)`.  Lists and dicts are abbreviated to their opening
bracket: the code only ever feeds their representation to `int(...)`, and
the Python representation of a list or dict never parses as an integer, a
property the abbreviation preserves. -/
def JVal.pyStr : JVal → String
  | .jstr s => s
  | .jnull => "None"
  | .jbool true => "True"
  | .jbool false => "False"
  | .jint n => toString n
  | .jarr _ => "["
  | .jobj _ => "\x7b"

/-- Whether a value is a dict. -/
def JVal.isObj : JVal → Bool
  | .jobj _ => true
  | _ => false

/-- Whether a value is Python `None`. -/
def JVal.isNull : JVal → Bool
  | .jnull => true
  | _ => false

/-- Python `v == s` for a string literal `s`: true exactly when `v` is an
equal string (comparisons across types are `False` in Python). -/
def JVal.eqStr : JVal → String → Bool
  | .jstr s, t => s == t
  | _, _ => false

/-- Python whitespace stripping on a character list. -/
def pyStripChars (l : List Char) : List Char :=
  ((l.dropWhile Char.isWhitespace).reverse.dropWhile Char.isWhitespace).reverse

/-- Python `s.strip()`. -/
def pyStrip (s : String) : String := ⟨pyStripChars s.data⟩

/-- Python `s.upper()` (ASCII). -/
def pyUpper (s : String) : String := ⟨s.data.map Char.toUpper⟩

/-- Python `s.lower()` (ASCII). -/
def pyLower (s : String) : String := ⟨s.data.map Char.toLower⟩

/-- Whether the second character list starts the first one. -/
def listStarts : List Char → List Char → Bool
  | _, [] => true
  | [], _ :: _ => false
  | a :: as, b :: bs => a == b && listStarts as bs

/-- Python `s.startswith(t)`. -/
def pyStartsWith (s t : String) : Bool := listStarts s.data t.data

/-- Python `s.endswith(t)`. -/
def pyEndsWith (s t : String) : Bool := listStarts s.data.reverse t.data.reverse

/-- Python `sep.join(parts)`. -/
def pyJoin (sep : String) : List String → String
  | [] => ""
  | [x] => x
  | x :: y :: rest => x ++ sep ++ pyJoin sep (y :: rest)

/-- Digit-run parser backing `pyParseInt`: accumulates ASCII digits,
allowing a single underscore between digits, exactly as Python `int`. -/
def pyIntLoop : List Char → Nat → Bool → Option Nat
  | [], acc, prevDigit => if prevDigit then some acc else none
  | c :: cs, acc, prevDigit =>
    if c.isDigit then pyIntLoop cs (acc * 10 + (c.toNat - 48)) true
    else if c == '_' && prevDigit then pyIntLoop cs acc false
    else none

/-- Python `int(s)` for an already stripped string `s`: optional sign, then
ASCII digits with single underscores between digits; `none` models the
`ValueError` raised on anything else. -/
def pyParseInt (s : String) : Option Int :=
  match s.data with
  | '-' :: rest => (pyIntLoop rest 0 false).map (fun n => -(n : Int))
  | '+' :: rest => (pyIntLoop rest 0 false).map (fun n => (n : Int))
  | l => (pyIntLoop l 0 false).map (fun n => (n : Int))

/-! ## scraper_pdb.py -/

/-- `raw.get("Parcel", {})`, line 23 of scraper_pdb.py. -/
def parcelOf (raw : JVal) : JVal := (raw.getKey "Parcel").getD (.jobj [])

/-- `p.get("SubParts", []) or []` as a Lean list, line 24 of scraper_pdb.py.
A truthy non-list value would make Python iterate or raise; the shape
hypothesis `rawOk` excludes it. -/
def subpartsOf (raw : JVal) : List JVal :=
  match pyOr (((parcelOf raw).getKey "SubParts").getD (.jarr [])) (.jarr []) with
  | .jarr xs => xs
  | _ => []

/-- `(p.get(k) or "").strip()`, the situs-address field pattern of lines
30 to 32 of scraper_pdb.py. -/
def strField (p : JVal) (k : String) : String :=
  pyStrip ((pyOr ((p.getKey k).getD .jnull) (.jstr "")).pyStr)

/-- `int(str(sp.get(k, "0")).strip() or "0")` with the failure branch
contributing zero: the per-subpart numeric-field pattern of lines 48 to 51
and 60 to 71 of scraper_pdb.py (the `except` arms all amount to adding
zero on a parse failure). -/
def parseCount (sp : JVal) (k : String) : Int :=
  let s0 := pyStrip (((sp.getKey k).getD (.jstr "0")).pyStr)
  let s1 := if s0 = "" then "0" else s0
  (pyParseInt s1).getD 0

/-- The year-built contribution of one subpart:
`yb = (sp.get("YearBuilt") or "").strip()`, lines 55 to 57 of
scraper_pdb.py; the empty string is filtered out by the caller. -/
def ybOf (sp : JVal) : String :=
  pyStrip ((pyOr ((sp.getKey "YearBuilt").getD .jnull) (.jstr "")).pyStr)

/-- The multiset of year-built strings added to `year_built_set` by the
subpart loop, in loop order. -/
def collectYB (sps : List JVal) : List String :=
  (sps.map ybOf).filter (fun s => !s.isEmpty)

/-- Python `<` on characters: comparison of code points. -/
def charLtB (a b : Char) : Bool := decide (a < b)

/-- Python `<` on strings as character lists: lexicographic comparison by
code point, shorter prefixes first. -/
def listLtB : List Char → List Char → Bool
  | [], [] => false
  | [], _ :: _ => true
  | _ :: _, [] => false
  | a :: as, b :: bs => charLtB a b || (a == b && listLtB as bs)

/-- The non-strict version of the Python string order, used as the sorting
relation; it is proved below to agree with the order on `String`. -/
def strLeB (a b : String) : Bool := a == b || listLtB a.data b.data

/-- `sorted(list(year_built_set))`, line 92 of scraper_pdb.py: a Python set
holds each value once and `sorted` lists its elements in ascending order,
which is exactly the sorted deduplication of the added values. -/
def pySortedSet (l : List String) : List String :=
  List.insertionSort (fun a b => strLeB a b = true) l.dedup

/-- One entry of `design_types`, lines 74 to 80 of scraper_pdb.py. -/
structure DesignTypeRec where
  design_type : JVal
  d1 : JVal
  d2 : JVal
  d3 : JVal
  d4 : JVal

/-- The summary dict returned by `build_summary`, lines 104 to 124 of
scraper_pdb.py.  Fields that Python passes through unchanged keep type
`JVal`; `year_built_list` holds strings (the only values the set receives
on the raise-free domain `rawOk`). -/
structure Summary where
  ain : JVal
  latitude : JVal
  longitude : JVal
  situs_address : String
  use_type : JVal
  zoning : JVal
  legal_description : JVal
  quality_class : JVal
  total_sqft_pdb : JVal
  land_width_depth : Option String
  year_built_list : List String
  num_units : JVal
  beds : JVal
  baths : JVal
  subparts_design_types : List DesignTypeRec

/-- `build_summary`, lines 22 to 126 of scraper_pdb.py.  The subpart loop
is rendered as maps and sums over the subpart list; the `if not subparts`
fallback block of lines 83 to 89 becomes the emptiness conditionals. -/
def build_summary (raw : JVal) : Summary :=
  let p := parcelOf raw
  let subparts := subpartsOf raw
  let situs_parts := [strField p "SitusStreet", strField p "SitusCity",
    strField p "SitusZipCode"]
  let situs_address := pyJoin ", " (situs_parts.filter (fun s => !s.isEmpty))
  let total_sqft_pdb : JVal :=
    if subparts.isEmpty then pyOr ((p.getKey "SqftMain").getD .jnull) (.jint 0)
    else .jint ((subparts.map (fun sp => parseCount sp "SqftMain")).sum)
  let total_units : JVal :=
    if subparts.isEmpty then pyOr ((p.getKey "NumOfUnits").getD .jnull) (.jint 0)
    else .jint ((subparts.map (fun sp => parseCount sp "NumOfUnits")).sum)
  let total_beds : JVal :=
    if subparts.isEmpty then pyOr ((p.getKey "NumOfBeds").getD .jnull) (.jint 0)
    else .jint ((subparts.map (fun sp => parseCount sp "NumOfBeds")).sum)
  let total_baths : JVal :=
    if subparts.isEmpty then pyOr ((p.getKey "NumOfBaths").getD .jnull) (.jint 0)
    else .jint ((subparts.map (fun sp => parseCount sp "NumOfBaths")).sum)
  let yb_added : List String :=
    if subparts.isEmpty then
      let v := (p.getKey "YearBuilt").getD .jnull
      if v.truthy then [v.pyStr] else []
    else collectYB subparts
  let year_built_list := pySortedSet yb_added
  let design_types := subparts.map (fun sp => DesignTypeRec.mk
    ((sp.getKey "DesignType").getD .jnull)
    ((sp.getKey "DesignType1stDigit").getD .jnull)
    ((sp.getKey "DesignType2ndDigit").getD .jnull)
    ((sp.getKey "DesignType3rdDigit").getD .jnull)
    ((sp.getKey "DesignType4thDigit").getD .jnull))
  let lw := (p.getKey "LandWidth").getD .jnull
  let ld := (p.getKey "LandDepth").getD .jnull
  let land_dimensions : Option String :=
    if lw.truthy && ld.truthy then some (lw.pyStr ++ "\x27 x " ++ ld.pyStr ++ "\x27")
    else none
  { ain := (p.getKey "AIN").getD .jnull
    latitude := (p.getKey "Latitude").getD .jnull
    longitude := (p.getKey "Longitude").getD .jnull
    situs_address := situs_address
    use_type := (p.getKey "UseType").getD .jnull
    zoning := (p.getKey "ZoningPDB").getD .jnull
    legal_description := (p.getKey "LegalDescription").getD .jnull
    quality_class := (p.getKey "QualityClass").getD .jnull
    total_sqft_pdb := total_sqft_pdb
    land_width_depth := land_dimensions
    year_built_list := year_built_list
    num_units := total_units
    beds := total_beds
    baths := total_baths
    subparts_design_types := design_types }

/-- A value a Python string method may be applied to after an `or ""`
guard: absent, a string, or falsy (the guard replaces falsy values by the
empty string before `.strip()` is called). -/
def strValOk : Option JVal → Bool
  | none => true
  | some (.jstr _) => true
  | some v => !v.truthy

/-- Shape of a subpart on which the Python loop body of lines 46 to 80 of
scraper_pdb.py runs without raising: a dict whose `YearBuilt` entry is
absent, a string, or falsy. -/
def spOk (sp : JVal) : Bool :=
  sp.isObj && strValOk (sp.getKey "YearBuilt")

/-- Shape of the `SubParts` entry on which line 24 of scraper_pdb.py
produces a list without raising: absent, falsy, or a list. -/
def subPartsFieldOk (p : JVal) : Bool :=
  match p.getKey "SubParts" with
  | none => true
  | some (.jarr _) => true
  | some v => !v.truthy

/-- The raise-free domain of `build_summary`: the record and its `Parcel`
are dicts, `SubParts` is a list (or absent or falsy), every subpart is a
well-shaped dict, and the string-sliced parcel fields are strings or falsy
or absent.  On this domain the embedding agrees with the Python code. -/
def rawOk (raw : JVal) : Bool :=
  raw.isObj &&
  (match raw.getKey "Parcel" with
   | none => true
   | some (.jobj _) => true
   | _ => false) &&
  subPartsFieldOk (parcelOf raw) &&
  (subpartsOf raw).all spOk &&
  strValOk ((parcelOf raw).getKey "SitusStreet") &&
  strValOk ((parcelOf raw).getKey "SitusCity") &&
  strValOk ((parcelOf raw).getKey "SitusZipCode") &&
  strValOk ((parcelOf raw).getKey "YearBuilt")

/-- Modelled from the spec: the per-subpart square footage of C1, namely
the `SqftMain` value parsed as an integer, with a malformed or missing
value contributing exactly zero. -/
def specIntField (k : String) (sp : JVal) : Int :=
  match sp.getKey k with
  | none => 0
  | some v => (pyParseInt (pyStrip v.pyStr)).getD 0

/-- Modelled from the spec: the square footage a subpart contributes in C1. -/
def specSqftOf (sp : JVal) : Int := specIntField "SqftMain" sp

/-! ## scraper_zoning.py -/

/-- `data.get("features", [])` as a Lean list, line 51 of
scraper_zoning.py.  A falsy non-list value makes Python return `None` via
the `if not features` test, which the empty list also produces; a truthy
non-list would raise at the indexing step and is excluded by `featOk`. -/
def featuresOf (data : JVal) : List JVal :=
  match (data.getKey "features").getD (.jarr []) with
  | .jarr xs => xs
  | _ => []

/-- The attribute record built by `fetch_zoning`, lines 57 to 62 of
scraper_zoning.py: always the complete set of four named fields. -/
structure ZoningAttrs where
  zone : JVal
  zone_description : JVal
  zone_category : JVal
  title_22_url : JVal

/-- `fetch_zoning`, lines 32 to 62 of scraper_zoning.py, as a function of
the upstream GIS response body (the HTTP request itself is effectful and
is not part of the claim). -/
def fetch_zoning (data : JVal) : Option ZoningAttrs :=
  match featuresOf data with
  | [] => none
  | f :: _ =>
    let attrs := (f.getKey "attributes").getD (.jobj [])
    some { zone := (attrs.getKey "ZONE").getD .jnull
           zone_description := (attrs.getKey "Z_DESC").getD .jnull
           zone_category := (attrs.getKey "Z_CATEGORY").getD .jnull
           title_22_url := (attrs.getKey "TITLE_22").getD .jnull }

/-- Raise-free domain of `fetch_zoning`: the `features` entry is absent,
falsy, or a list whose head (when any) is a dict with a dict-or-absent
`attributes` entry. -/
def featOk (data : JVal) : Bool :=
  match data.getKey "features" with
  | none => true
  | some (.jarr []) => true
  | some (.jarr (f :: _)) =>
    f.isObj &&
    (match f.getKey "attributes" with
     | none => true
     | some (.jobj _) => true
     | _ => false)
  | some v => !v.truthy

/-- The combined dict returned by `fetch_zoning_by_ain`, lines 93 to 119
of scraper_zoning.py. -/
structure ZoningByAinResult where
  ain : JVal
  situs_address : String
  latitude : JVal
  longitude : JVal
  use_type : JVal
  assessor_zoning_pdb : JVal
  znet_zone : JVal
  znet_zone_description : JVal
  znet_zone_category : JVal
  znet_title_22_url : JVal

/-- `fetch_zoning_by_ain`, lines 68 to 121 of scraper_zoning.py, as a
function of the AIN argument, the assessor response body `raw` and the GIS
response body `zdata` that the spatial query at the parcel coordinates
would return; the `ValueError` of line 81 becomes the `Except.error`
branch. -/
def fetch_zoning_by_ain (ain : String) (raw : JVal) (zdata : JVal) :
    Except String ZoningByAinResult :=
  let parcel := (raw.getKey "Parcel").getD (.jobj [])
  let lat := (parcel.getKey "Latitude").getD .jnull
  let lon := (parcel.getKey "Longitude").getD .jnull
  if lat.isNull || lon.isNull then
    .error "Parcel record does not contain Latitude/Longitude."
  else
    let situs_parts := [strField parcel "SitusStreet", strField parcel "SitusCity",
      strField parcel "SitusZipCode"]
    let situs_address := pyJoin ", " (situs_parts.filter (fun s => !s.isEmpty))
    let zoning_info := fetch_zoning zdata
    .ok { ain := pyOr ((parcel.getKey "AIN").getD .jnull) (.jstr ain)
          situs_address := situs_address
          latitude := lat
          longitude := lon
          use_type := (parcel.getKey "UseType").getD .jnull
          assessor_zoning_pdb := (parcel.getKey "ZoningPDB").getD .jnull
          znet_zone := match zoning_info with
            | some z => z.zone
            | none => .jnull
          znet_zone_description := match zoning_info with
            | some z => z.zone_description
            | none => .jnull
          znet_zone_category := match zoning_info with
            | some z => z.zone_category
            | none => .jnull
          znet_title_22_url := match zoning_info with
            | some z => z.title_22_url
            | none => .jnull }

/-- Raise-free domain of `fetch_zoning_by_ain` over the assessor body:
`Parcel` is a dict or absent and the situs fields are strings or falsy or
absent. -/
def zoningRawOk (raw : JVal) : Bool :=
  (match raw.getKey "Parcel" with
   | none => true
   | some (.jobj _) => true
   | _ => false) &&
  strValOk ((parcelOf raw).getKey "SitusStreet") &&
  strValOk ((parcelOf raw).getKey "SitusCity") &&
  strValOk ((parcelOf raw).getKey "SitusZipCode")

/-! ## ain_resolver.py -/

/-- The per-row test of line 15 of ain_resolver.py, with its two raise
points (a non-dict row, and `.upper()` on a non-string `street_name`
value) surfaced as `Except.error`; Python short-circuits `and`, so a
house-number mismatch is decided before `street_name` is touched. -/
def rowStep (house street : String) (row : JVal) : Except Unit Bool :=
  if !row.isObj then .error ()
  else if !(((row.getKey "house_number").getD .jnull).eqStr house) then .ok false
  else
    match (row.getKey "street_name").getD (.jstr "") with
    | .jstr s => .ok (pyStartsWith (pyUpper s) (pyUpper street))
    | _ => .error ()

/-- The row loop of lines 14 to 19 of ain_resolver.py: the first matching
row returns its `ain` value, a raised exception falls through the bare
`except` to the final `return None`, and exhaustion also returns `None`
(both rendered as `jnull`, exactly as observed by the Python caller). -/
def scanRows (house street : String) : List JVal → JVal
  | [] => .jnull
  | row :: rest =>
    match rowStep house street row with
    | .error _ => .jnull
    | .ok true => (row.getKey "ain").getD .jnull
    | .ok false => scanRows house street rest

/-- `data.get("rows", [])` as a Lean list.  A non-list value makes the
Python `for` loop raise into the bare `except`, returning `None`, which is
also what the empty list yields here, so the collapse is observation
preserving. -/
def rowsOf (data : JVal) : List JVal :=
  match (data.getKey "rows").getD (.jarr []) with
  | .jarr xs => xs
  | _ => []

/-- `resolve_address_to_ain`, lines 4 to 19 of ain_resolver.py, as a
function of the upstream response: `none` stands for the request or JSON
decode raising (network failure), which the bare `except` turns into the
same `None` result as a fruitless scan. -/
def resolve_address_to_ain (house street : String) (resp : Option JVal) : JVal :=
  match resp with
  | none => .jnull
  | some data => scanRows house street (rowsOf data)

/-- Raise-free shape of one response row: a dict whose `street_name` entry
is absent or a string. -/
def rowOk (row : JVal) : Bool :=
  row.isObj &&
  (match row.getKey "street_name" with
   | none => true
   | some (.jstr _) => true
   | _ => false)

/-- Modelled from the spec: the row criterion of C6, exact house-number
equality and case-insensitive street-name-prefix match. -/
def specRowMatch (house street : String) (row : JVal) : Bool :=
  ((row.getKey "house_number").getD .jnull).eqStr house &&
  (match (row.getKey "street_name").getD (.jstr "") with
   | .jstr s => pyStartsWith (pyUpper s) (pyUpper street)
   | _ => false)

/-! ## main.py -/

/-- One element of the list built by `combo_batch`, lines 129 to 140 of
main.py: a success entry has the parcel and zoning payloads and no error
key; a failure entry has explicit `None` payloads and the error key. -/
structure BatchEntry where
  ain : String
  parcel : Option Summary
  zoning : Option ZoningByAinResult
  error : Option String

/-- The body of one iteration of the `combo_batch` loop, lines 126 to 140
of main.py.  The endpoint calls `get_parcel_summary` and
`get_zoning_summary` are abstracted as oracles returning either a payload
or the message of the exception they raise; the parcel call runs first and
a raise in either call produces the error entry. -/
def comboItem (po : String → Except String Summary)
    (zo : String → Except String ZoningByAinResult) (ain : String) : BatchEntry :=
  match po ain with
  | .error e => { ain := ain, parcel := none, zoning := none, error := some e }
  | .ok pcl =>
    match zo ain with
    | .error e => { ain := ain, parcel := none, zoning := none, error := some e }
    | .ok z => { ain := ain, parcel := some pcl, zoning := some z, error := none }

/-- `combo_batch`, lines 118 to 142 of main.py: the sequential loop over
the requested AINs, appending one entry per AIN in request order. -/
def combo_batch (po : String → Except String Summary)
    (zo : String → Except String ZoningByAinResult) : List String → List BatchEntry
  | [] => []
  | ain :: rest => comboItem po zo ain :: combo_batch po zo rest

/-! ## zimas_scraper.py -/

/-- Python `s.title()` (ASCII): a letter is uppercased after a non-letter
and lowercased after a letter. -/
def pyTitleGo : Bool → List Char → List Char
  | _, [] => []
  | prevAlpha, c :: cs =>
    if c.isAlpha then
      (if prevAlpha then c.toLower else c.toUpper) :: pyTitleGo true cs
    else c :: pyTitleGo false cs

/-- Python `s.title()`. -/
def pyTitle (s : String) : String := ⟨pyTitleGo false s.data⟩

/-- The suffix list of lines 23 to 25 of zimas_scraper.py, in source
order. -/
def streetSuffixes : List String :=
  [" st", " street", " ave", " avenue", " blvd", " boulevard",
   " dr", " drive", " rd", " road", " pl", " place", " ln", " lane",
   " way", " ct", " court", " cir", " circle", " ter", " terrace"]

/-- The suffix-stripping loop of lines 27 to 30 of zimas_scraper.py: the
first matching suffix is removed and the loop breaks. -/
def dropStreetSuffix : List String → String → String
  | [], n => n
  | s :: rest, n =>
    if pyEndsWith n s then ⟨n.data.take (n.data.length - s.data.length)⟩
    else dropStreetSuffix rest n

/-- `clean_street_name`, lines 22 to 31 of zimas_scraper.py. -/
def clean_street_name (name : String) : String :=
  pyTitle (pyStrip (dropStreetSuffix streetSuffixes (pyStrip (pyLower name))))

/-- Python `s.replace(" ", "_")`, line 120 of zimas_scraper.py. -/
def pyUnderscoreSpaces (s : String) : String :=
  ⟨s.data.map (fun c => if c == ' ' then '_' else c)⟩

/-- The `tab_text` entries of the `SECTIONS` table, lines 39 to 45 of
zimas_scraper.py, in source order. -/
def sectionTabs : List String :=
  ["Jurisdictional", "Planning and Zoning", "Additional", "Environmental",
   "Seismic Hazards"]

/-- The accumulated `Overlay_Zones_Data` mapping: section id to the
label-to-value mapping scraped in that section. -/
abbrev Overlay := List (String × List (String × String))

/-- `result["Overlay_Zones_Data"].get(sec, {}).get(key)`: the per-section
path lookup used by the final remapping, lines 164 to 185 of
zimas_scraper.py. -/
def ovGet (ov : Overlay) (sec key : String) : Option String :=
  let m := ((ov.find? (fun p => p.1 == sec)).map (fun p => p.2)).getD []
  (m.find? (fun p => p.1 == key)).map (fun p => p.2)

/-- The same lookup with the sentinel default of the remapping step. -/
def ovGetD (ov : Overlay) (sec key : String) : String :=
  (ovGet ov sec key).getD "Not found"

/-- The `clean_data` record of lines 164 to 185 of zimas_scraper.py, field
names as in the source. -/
structure CleanData where
  General_Plan_Land_Use : String
  Occupancy : String
  Community_Plan_Area : String
  Liquefaction_Zone : String
  Flood_Zone : String
  Specific_Plan : String
  High_Quality_Transit_Corridor_within_half_mile : String
  California_Building_Codes : String
  Alquist_Priolo_Fault_Zone : String
  Hillside_Area_Zoning_Code : String
  Special_Land_Use_or_Zoning : String
  Historic_Preservation_Review : String
  HistoricPlacesLA : String
  CDO_Community_Design_Overlay : String
  RFA_Residential_Floor_Area_District : String
  Airport_Hazard : String
  Coastal_Zone : String
  Very_High_Fire_Hazard_Severity_Zone : String
  Special_Grading_Area : String
  Wildland_Urban_Interface_WUI : String

/-- The final remapping of lines 164 to 185 of zimas_scraper.py: each
attribute is read at its fixed per-section path with the sentinel
default; `Occupancy` and `California_Building_Codes` are the two constant
fields of the source. -/
def remap_clean (ov : Overlay) : CleanData :=
  { General_Plan_Land_Use := ovGetD ov "Planning_and_Zoning" "General_Plan_Land_Use"
    Occupancy := "Not listed in ZIMAS"
    Community_Plan_Area := ovGetD ov "Jurisdictional" "Community_Plan_Area"
    Liquefaction_Zone := ovGetD ov "Seismic_Hazards" "Liquefaction"
    Flood_Zone := ovGetD ov "Additional" "Flood_Zone"
    Specific_Plan := ovGetD ov "Planning_and_Zoning" "Specific_Plan_Area"
    High_Quality_Transit_Corridor_within_half_mile :=
      ovGetD ov "Planning_and_Zoning" "High_Quality_Transit_Corridor_within_1_2_mile"
    California_Building_Codes := "Not listed in ZIMAS"
    Alquist_Priolo_Fault_Zone := ovGetD ov "Seismic_Hazards" "Alquist_Priolo_Fault_Zone"
    Hillside_Area_Zoning_Code := ovGetD ov "Planning_and_Zoning" "Hillside_Area_Zoning_Code"
    Special_Land_Use_or_Zoning := ovGetD ov "Planning_and_Zoning" "Special_Land_Use_Zoning"
    Historic_Preservation_Review := ovGetD ov "Planning_and_Zoning" "Historic_Preservation_Review"
    HistoricPlacesLA := ovGetD ov "Planning_and_Zoning" "HistoricPlacesLA"
    CDO_Community_Design_Overlay := ovGetD ov "Planning_and_Zoning" "CDO_Community_Design_Overlay"
    RFA_Residential_Floor_Area_District :=
      ovGetD ov "Planning_and_Zoning" "RFA_Residential_Floor_Area_District"
    Airport_Hazard := ovGetD ov "Additional" "Airport_Hazard"
    Coastal_Zone := ovGetD ov "Additional" "Coastal_Zone"
    Very_High_Fire_Hazard_Severity_Zone :=
      ovGetD ov "Additional" "Very_High_Fire_Hazard_Severity_Zone"
    Special_Grading_Area :=
      ovGetD ov "Additional" "Special_Grading_Area_BOE_Basic_Grid_Map_A_13372"
    Wildland_Urban_Interface_WUI :=
      ovGetD ov "Environmental" "Wildland_Urban_Interface_WUI" }

/-- The `_debug` dict of lines 80 to 84 of zimas_scraper.py, filled from
the inputs before any page interaction. -/
structure DebugInfo where
  house_number : String
  street_name_input : String
  street_name_clean : String

/-- What one iteration of the tab loop of lines 117 to 161 of
zimas_scraper.py can do: raise (an uncaught exception inside the loop
body), find the tab invisible (an empty section is recorded and the loop
continues), or produce the mapping scraped from the selected frame.  The
row extraction itself (lines 147 to 159) is page-content dependent and is
abstracted into the produced mapping. -/
inductive SectionOutcome where
  | raised (msg : String)
  | hidden
  | table (data : List (String × String))

/-- The page interactions of the scraping session, abstracted step by
step: the navigation and consent-dialog steps (lines 100 to 101), the
field-fill and search steps (lines 103 to 114), the per-section outcomes,
and the CSV export (lines 192 to 202).  `some msg` on a step means that
step raised with that message. -/
structure PageEnv where
  navStep : Option String
  fillStep : Option String
  sectionStep : String → SectionOutcome
  csvStep : Option String

/-- The tab loop of lines 117 to 161 of zimas_scraper.py over the given
tab list: a hidden tab records an empty section, a raise aborts the whole
loop, and otherwise the scraped mapping is recorded under the section id. -/
def runSections (env : PageEnv) : List String → Except String Overlay
  | [] => .ok []
  | t :: ts =>
    match env.sectionStep t with
    | .raised e => .error e
    | .hidden => (runSections env ts).map (fun rest => (pyUnderscoreSpaces t, []) :: rest)
    | .table d => (runSections env ts).map (fun rest => (pyUnderscoreSpaces t, d) :: rest)

/-- The value returned by `scrape_zimas_ultra`: the success dict of lines
187 to 190 or the error dict of line 209.  The two constructors mirror the
two return statements; no returned dict ever carries both the record and
an error key. -/
inductive ScrapeResult where
  | ok (overlay : CleanData) (debug : DebugInfo)
  | err (msg : String) (debug : DebugInfo)

/-- The observable outcome of one call: the returned value together with
whether the browser session was closed. -/
structure ScrapeOutcome where
  result : ScrapeResult
  browserClosed : Bool

/-- `scrape_zimas_ultra`, lines 72 to 209 of zimas_scraper.py, for an open
browser session abstracted by `env`: the `try` body runs the steps in
source order, any raise is caught by the `except` of lines 207 to 209
which closes the browser and returns the error dict, and the success path
closes the browser at line 204 before returning. -/
def scrape_zimas_ultra (house street : String) (env : PageEnv) : ScrapeOutcome :=
  let debug : DebugInfo :=
    { house_number := house
      street_name_input := street
      street_name_clean := clean_street_name street }
  match env.navStep with
  | some e => { result := .err e debug, browserClosed := true }
  | none =>
    match env.fillStep with
    | some e => { result := .err e debug, browserClosed := true }
    | none =>
      match runSections env sectionTabs with
      | .error e => { result := .err e debug, browserClosed := true }
      | .ok ov =>
        match env.csvStep with
        | some e => { result := .err e debug, browserClosed := true }
        | none => { result := .ok (remap_clean ov) debug, browserClosed := true }

/-! ## Derived notions used by the claim statements -/

/-- The four aggregate fields of a summary, as one tuple. -/
def aggQuad (s : Summary) : JVal × JVal × JVal × JVal :=
  (s.total_sqft_pdb, s.num_units, s.beds, s.baths)

/-- The zero-subpart fallback behaviour of one aggregate field, as amended
by the C2 counterexample: a present truthy parcel-level value is passed
through, a present falsy value or an absent key yields the integer zero. -/
def fallbackSpec (pv : Option JVal) (out : JVal) : Prop :=
  (∀ v, pv = some v → v.truthy = true → out = v) ∧
  (∀ v, pv = some v → v.truthy = false → out = .jint 0) ∧
  (pv = none → out = .jint 0)

/-- The zero-subpart passthrough behaviour claimed by C10: a string-valued
parcel-level field yields the same string, a falsy value or an absent key
yields the integer zero. -/
def passthroughSpec (pv : Option JVal) (out : JVal) : Prop :=
  (∀ s : String, pv = some (.jstr s) → s ≠ "" → out = .jstr s) ∧
  (∀ v, pv = some v → v.truthy = false → out = .jint 0) ∧
  (pv = none → out = .jint 0)

/-- Concrete record for the C1 witness: two parsable subparts, one
malformed and one missing square footage. -/
def c1Raw : JVal :=
  .jobj [("Parcel", .jobj [("SubParts", .jarr
    [.jobj [("SqftMain", .jstr "200")],
     .jobj [("SqftMain", .jstr "300"), ("NumOfUnits", .jstr "2")],
     .jobj [("SqftMain", .jstr "abc")],
     .jobj []])])]

/-- Concrete record refuting C2: no subparts, and a parcel-level
`NumOfUnits` that is present but falsy (the empty string). -/
def c2CexRaw : JVal := .jobj [("Parcel", .jobj [("NumOfUnits", .jstr "")])]

/-- Concrete record for the C2 witness: one subpart, so the aggregation
path is the subpart sum. -/
def c2Raw : JVal :=
  .jobj [("Parcel", .jobj [("NumOfUnits", .jstr "9"),
    ("SubParts", .jarr [.jobj [("SqftMain", .jstr "100"), ("NumOfUnits", .jstr "1")]])])]

/-- Concrete records for the C3 witness: the same parcel with the subpart
list in two different orders. -/
def c3RawA : JVal :=
  .jobj [("Parcel", .jobj [("SubParts", .jarr
    [.jobj [("YearBuilt", .jstr "1999")],
     .jobj [("YearBuilt", .jstr "1987")],
     .jobj [("YearBuilt", .jstr " 1999 ")]])])]

/-- The permuted companion of `c3RawA`. -/
def c3RawB : JVal :=
  .jobj [("Parcel", .jobj [("SubParts", .jarr
    [.jobj [("YearBuilt", .jstr "1987")],
     .jobj [("YearBuilt", .jstr " 1999 ")],
     .jobj [("YearBuilt", .jstr "1999")]])])]

/-- Concrete GIS response for the C4 witness: one feature with the four
named attributes. -/
def c4Data : JVal :=
  .jobj [("features", .jarr
    [.jobj [("attributes", .jobj
      [("ZONE", .jstr "LCR175"), ("Z_DESC", .jstr "Residential"),
       ("Z_CATEGORY", .jstr "Residential"), ("TITLE_22", .jstr "http://e.x")])],
     .jobj [("attributes", .jobj [("ZONE", .jstr "OTHER")])]])]

/-- Concrete assessor record refuting C5: latitude present, longitude
absent, so the record does not lack both coordinates. -/
def c5CexRaw : JVal := .jobj [("Parcel", .jobj [("Latitude", .jint 34)])]

/-- Concrete assessor record for the C5 witness: both coordinates present. -/
def c5Raw : JVal :=
  .jobj [("Parcel", .jobj [("AIN", .jstr "5846022043"),
    ("Latitude", .jint 34), ("Longitude", .jint (-118))])]

/-- Concrete rows for the C6 witness: a non-matching row followed by a
matching one. -/
def c6Rows : List JVal :=
  [.jobj [("house_number", .jstr "99"), ("street_name", .jstr "COSMO ST"), ("ain", .jstr "111")],
   .jobj [("house_number", .jstr "100"), ("street_name", .jstr "cosmo st"), ("ain", .jstr "222")]]

/-- A fixed summary payload for the C7 witness oracles. -/
def c7Summary : Summary := build_summary c5Raw

/-- A fixed zoning payload for the C7 witness oracles. -/
def c7Zoning : ZoningByAinResult :=
  { ain := .jstr "A", situs_address := "", latitude := .jint 34, longitude := .jint (-118)
    use_type := .jnull, assessor_zoning_pdb := .jnull, znet_zone := .jnull
    znet_zone_description := .jnull, znet_zone_category := .jnull, znet_title_22_url := .jnull }

/-- C7 witness parcel oracle: the AIN "B" raises, every other AIN
succeeds. -/
def c7Po : String → Except String Summary :=
  fun a => if a = "B" then .error "Assessor API error: boom" else .ok c7Summary

/-- C7 witness zoning oracle: always succeeds. -/
def c7Zo : String → Except String ZoningByAinResult := fun _ => .ok c7Zoning

/-- Concrete overlay mapping for the C8 witness: one attribute present at
its expected path, everything else absent. -/
def c8Ov : Overlay := [("Additional", [("Flood_Zone", "Zone X")])]

/-- Concrete page environment for the C9 witness: the navigation step
raises. -/
def c9Env : PageEnv :=
  { navStep := some "net down", fillStep := none
    sectionStep := fun _ => .hidden, csvStep := none }

/-- Concrete page environment for the C9 success-path witness conjunct. -/
def c9EnvOk : PageEnv :=
  { navStep := none, fillStep := none
    sectionStep := fun _ => .table [("Flood_Zone", "None")], csvStep := none }

/-- Concrete record for the C10 witness: no subparts and a truthy
string-valued parcel-level `SqftMain`. -/
def c10Raw : JVal := .jobj [("Parcel", .jobj [("SqftMain", .jstr "ABC")])]

/-! ## Helper lemmas -/

theorem total_sqft_pdb_def (raw : JVal) :
    (build_summary raw).total_sqft_pdb =
      if (subpartsOf raw).isEmpty then
        pyOr (((parcelOf raw).getKey "SqftMain").getD .jnull) (.jint 0)
      else .jint (((subpartsOf raw).map (fun sp => parseCount sp "SqftMain")).sum) := rfl

theorem num_units_def (raw : JVal) :
    (build_summary raw).num_units =
      if (subpartsOf raw).isEmpty then
        pyOr (((parcelOf raw).getKey "NumOfUnits").getD .jnull) (.jint 0)
      else .jint (((subpartsOf raw).map (fun sp => parseCount sp "NumOfUnits")).sum) := rfl

theorem beds_def (raw : JVal) :
    (build_summary raw).beds =
      if (subpartsOf raw).isEmpty then
        pyOr (((parcelOf raw).getKey "NumOfBeds").getD .jnull) (.jint 0)
      else .jint (((subpartsOf raw).map (fun sp => parseCount sp "NumOfBeds")).sum) := rfl

theorem baths_def (raw : JVal) :
    (build_summary raw).baths =
      if (subpartsOf raw).isEmpty then
        pyOr (((parcelOf raw).getKey "NumOfBaths").getD .jnull) (.jint 0)
      else .jint (((subpartsOf raw).map (fun sp => parseCount sp "NumOfBaths")).sum) := rfl

theorem year_built_list_def (raw : JVal) :
    (build_summary raw).year_built_list =
      pySortedSet (if (subpartsOf raw).isEmpty then
          (if (((parcelOf raw).getKey "YearBuilt").getD .jnull).truthy then
            [(((parcelOf raw).getKey "YearBuilt").getD .jnull).pyStr]
          else [])
        else collectYB (subpartsOf raw)) := rfl

theorem parseCount_eq_specIntField (sp : JVal) (k : String) :
    parseCount sp k = specIntField k sp := by
  unfold parseCount specIntField
  cases h : sp.getKey k with
  | none => simp only [h, Option.getD_none]; decide
  | some v =>
    simp only [h, Option.getD_some]
    by_cases hs : pyStrip v.pyStr = ""
    · rw [hs]; decide
    · simp [hs]

theorem fallbackSpec_pyOr (pv : Option JVal) :
    fallbackSpec pv (pyOr (pv.getD .jnull) (.jint 0)) := by
  refine ⟨?_, ?_, ?_⟩
  · intro v hv ht; rw [hv]; simp [pyOr, ht]
  · intro v hv ht; rw [hv]; simp [pyOr, ht]
  · intro hv; rw [hv]; simp [pyOr, JVal.truthy]

theorem passthroughSpec_pyOr (pv : Option JVal) :
    passthroughSpec pv (pyOr (pv.getD .jnull) (.jint 0)) := by
  refine ⟨?_, ?_, ?_⟩
  · intro s hv hs; rw [hv]
    simp [pyOr, JVal.truthy, String.isEmpty_iff, hs]
  · intro v hv ht; rw [hv]; simp [pyOr, ht]
  · intro hv; rw [hv]; simp [pyOr, JVal.truthy]

theorem isEmpty_false_of_ne_nil {α : Type} {l : List α} (h : l ≠ []) :
    l.isEmpty = false := by
  cases l with
  | nil => exact absurd rfl h
  | cons a t => rfl

theorem agg_field_sum (raw : JVal) (hne : subpartsOf raw ≠ []) :
    (build_summary raw).total_sqft_pdb =
      .jint (((subpartsOf raw).map (specIntField "SqftMain")).sum) ∧
    (build_summary raw).num_units =
      .jint (((subpartsOf raw).map (specIntField "NumOfUnits")).sum) ∧
    (build_summary raw).beds =
      .jint (((subpartsOf raw).map (specIntField "NumOfBeds")).sum) ∧
    (build_summary raw).baths =
      .jint (((subpartsOf raw).map (specIntField "NumOfBaths")).sum) := by
  have hie := isEmpty_false_of_ne_nil hne
  refine ⟨?_, ?_, ?_, ?_⟩
  · rw [total_sqft_pdb_def]; simp [hie, parseCount_eq_specIntField]
  · rw [num_units_def]; simp [hie, parseCount_eq_specIntField]
  · rw [beds_def]; simp [hie, parseCount_eq_specIntField]
  · rw [baths_def]; simp [hie, parseCount_eq_specIntField]

theorem agg_field_fallback (raw : JVal) (he : subpartsOf raw = []) :
    fallbackSpec ((parcelOf raw).getKey "SqftMain") (build_summary raw).total_sqft_pdb ∧
    fallbackSpec ((parcelOf raw).getKey "NumOfUnits") (build_summary raw).num_units ∧
    fallbackSpec ((parcelOf raw).getKey "NumOfBeds") (build_summary raw).beds ∧
    fallbackSpec ((parcelOf raw).getKey "NumOfBaths") (build_summary raw).baths := by
  have hie : (subpartsOf raw).isEmpty = true := by rw [he]; rfl
  refine ⟨?_, ?_, ?_, ?_⟩
  · rw [total_sqft_pdb_def]; simp only [hie, if_true]; exact fallbackSpec_pyOr _
  · rw [num_units_def]; simp only [hie, if_true]; exact fallbackSpec_pyOr _
  · rw [beds_def]; simp only [hie, if_true]; exact fallbackSpec_pyOr _
  · rw [baths_def]; simp only [hie, if_true]; exact fallbackSpec_pyOr _

/-- C1: for a raw parcel record with a non-empty subpart list, the
`total_sqft_pdb` field of the summary built by `build_summary` is the sum
over all subparts of the subpart's `SqftMain` value parsed as an integer,
a malformed or missing value contributing exactly zero (`specSqftOf`). -/
theorem C1_subpart_sqft_sum (raw : JVal) (h : rawOk raw = true)
    (hne : subpartsOf raw ≠ []) :
    (build_summary raw).total_sqft_pdb =
      .jint (((subpartsOf raw).map specSqftOf).sum) :=
  (agg_field_sum raw hne).1

/-- C1 witness: a record with subparts of 200, 300, malformed, and missing
square footage sums to 500. -/
theorem C1_subpart_sqft_sum_witness :
    rawOk c1Raw = true ∧ subpartsOf c1Raw ≠ [] ∧
    (build_summary c1Raw).total_sqft_pdb = .jint 500 := by
  have hne : subpartsOf c1Raw ≠ [] := List.cons_ne_nil _ _
  exact ⟨rfl, hne, (C1_subpart_sqft_sum c1Raw rfl hne).trans rfl⟩

/-- C2 counterexample: with no subparts and a parcel-level `NumOfUnits`
that is present but falsy (the empty string), the summary holds the
integer zero, not the parcel-level field value, so the aggregate is
zero-by-default even though the parcel-level field is present. -/
theorem C2_counterexample :
    (parcelOf c2CexRaw).getKey "NumOfUnits" = some (.jstr "") ∧
    subpartsOf c2CexRaw = [] ∧
    (build_summary c2CexRaw).num_units = .jint 0 ∧
    JVal.jint 0 ≠ JVal.jstr "" :=
  ⟨rfl, rfl, rfl, fun hc => JVal.noConfusion hc⟩

/-- C2 (amended): exactly one aggregation path contributes.  When the
subpart list is non-empty the four aggregate fields are integer sums over
the subparts alone — any record with the same subpart list yields the same
four aggregates, whatever its parcel-level scalars — and when the subpart
list is empty each aggregate equals the parcel-level scalar field when
that value is present and truthy, and defaults to the integer zero when it
is absent or falsy (amendment forced by `C2_counterexample`). -/
theorem C2_aggregation_paths (raw raw₂ : JVal) (h : rawOk raw = true)
    (h₂ : rawOk raw₂ = true) :
    (subpartsOf raw ≠ [] →
      (build_summary raw).total_sqft_pdb =
        .jint (((subpartsOf raw).map (specIntField "SqftMain")).sum) ∧
      (build_summary raw).num_units =
        .jint (((subpartsOf raw).map (specIntField "NumOfUnits")).sum) ∧
      (build_summary raw).beds =
        .jint (((subpartsOf raw).map (specIntField "NumOfBeds")).sum) ∧
      (build_summary raw).baths =
        .jint (((subpartsOf raw).map (specIntField "NumOfBaths")).sum) ∧
      (subpartsOf raw₂ = subpartsOf raw →
        aggQuad (build_summary raw₂) = aggQuad (build_summary raw))) ∧
    (subpartsOf raw = [] →
      fallbackSpec ((parcelOf raw).getKey "SqftMain") (build_summary raw).total_sqft_pdb ∧
      fallbackSpec ((parcelOf raw).getKey "NumOfUnits") (build_summary raw).num_units ∧
      fallbackSpec ((parcelOf raw).getKey "NumOfBeds") (build_summary raw).beds ∧
      fallbackSpec ((parcelOf raw).getKey "NumOfBaths") (build_summary raw).baths) := by
  constructor
  · intro hne
    obtain ⟨h1, h2, h3, h4⟩ := agg_field_sum raw hne
    refine ⟨h1, h2, h3, h4, ?_⟩
    intro hsub
    have hne₂ : subpartsOf raw₂ ≠ [] := fun hc => hne (hsub.symm.trans hc)
    obtain ⟨g1, g2, g3, g4⟩ := agg_field_sum raw₂ hne₂
    unfold aggQuad
    rw [h1, h2, h3, h4, g1, g2, g3, g4, hsub]
  · exact agg_field_fallback raw

/-- C2 witness: with one subpart of one unit, the aggregate `num_units` is
the subpart sum 1, even though the parcel-level `NumOfUnits` is 9. -/
theorem C2_aggregation_paths_witness :
    rawOk c2Raw = true ∧ subpartsOf c2Raw ≠ [] ∧
    (parcelOf c2Raw).getKey "NumOfUnits" = some (.jstr "9") ∧
    (build_summary c2Raw).num_units = .jint 1 := by
  have hne : subpartsOf c2Raw ≠ [] := List.cons_ne_nil _ _
  exact ⟨rfl, hne, rfl,
    (((C2_aggregation_paths c2Raw c2Raw rfl rfl).1 hne).2.1).trans rfl⟩

/-- C10: when the subpart list is non-empty all four aggregates of
`build_summary` are integers; when it is empty the parcel-level values
pass through without integer parsing — a non-empty string stays a string —
and any falsy or absent parcel-level value yields the integer zero. -/
theorem C10_aggregate_types (raw : JVal) (h : rawOk raw = true) :
    (subpartsOf raw ≠ [] →
      (∃ a : Int, (build_summary raw).total_sqft_pdb = .jint a) ∧
      (∃ b : Int, (build_summary raw).num_units = .jint b) ∧
      (∃ c : Int, (build_summary raw).beds = .jint c) ∧
      (∃ d : Int, (build_summary raw).baths = .jint d)) ∧
    (subpartsOf raw = [] →
      passthroughSpec ((parcelOf raw).getKey "SqftMain")
        (build_summary raw).total_sqft_pdb ∧
      passthroughSpec ((parcelOf raw).getKey "NumOfUnits")
        (build_summary raw).num_units ∧
      passthroughSpec ((parcelOf raw).getKey "NumOfBeds")
        (build_summary raw).beds ∧
      passthroughSpec ((parcelOf raw).getKey "NumOfBaths")
        (build_summary raw).baths) := by
  constructor
  · intro hne
    obtain ⟨h1, h2, h3, h4⟩ := agg_field_sum raw hne
    exact ⟨⟨_, h1⟩, ⟨_, h2⟩, ⟨_, h3⟩, ⟨_, h4⟩⟩
  · intro he
    have hie : (subpartsOf raw).isEmpty = true := by rw [he]; rfl
    refine ⟨?_, ?_, ?_, ?_⟩
    · rw [total_sqft_pdb_def]; simp only [hie, if_true]; exact passthroughSpec_pyOr _
    · rw [num_units_def]; simp only [hie, if_true]; exact passthroughSpec_pyOr _
    · rw [beds_def]; simp only [hie, if_true]; exact passthroughSpec_pyOr _
    · rw [baths_def]; simp only [hie, if_true]; exact passthroughSpec_pyOr _

/-- C10 witness: with no subparts and a parcel-level `SqftMain` of "ABC",
the aggregate is the string "ABC". -/
theorem C10_aggregate_types_witness :
    rawOk c10Raw = true ∧ subpartsOf c10Raw = [] ∧
    (build_summary c10Raw).total_sqft_pdb = .jstr "ABC" :=
  ⟨rfl, rfl,
    ((C10_aggregate_types c10Raw rfl).2 rfl).1.1 "ABC" rfl (by decide)⟩

theorem listLtB_iff_lex (as bs : List Char) :
    listLtB as bs = true ↔ List.Lex (fun a b => a < b) as bs := by
  induction as generalizing bs with
  | nil =>
    cases bs with
    | nil =>
      constructor
      · intro h; exact absurd h (by simp [listLtB])
      · intro h; nomatch h
    | cons b bs =>
      simp only [listLtB, true_iff]
      exact List.Lex.nil
  | cons a as ih =>
    cases bs with
    | nil =>
      constructor
      · intro h; exact absurd h (by simp [listLtB])
      · intro h; nomatch h
    | cons b bs =>
      simp only [listLtB, Bool.or_eq_true, Bool.and_eq_true, charLtB,
        decide_eq_true_eq, beq_iff_eq]
      constructor
      · rintro (hlt | ⟨heq, htail⟩)
        · exact List.Lex.rel hlt
        · subst heq; exact List.Lex.cons ((ih bs).mp htail)
      · intro h
        cases h with
        | cons htail => exact Or.inr ⟨rfl, (ih bs).mpr htail⟩
        | rel hlt => exact Or.inl hlt

theorem string_lt_iff_lex {a b : String} :
    a < b ↔ List.Lex (fun x y => x < y) a.data b.data :=
  String.lt_iff_toList_lt

theorem strLeB_iff (a b : String) : strLeB a b = true ↔ a ≤ b := by
  simp only [strLeB, Bool.or_eq_true, beq_iff_eq]
  constructor
  · rintro (heq | hlt)
    · exact le_of_eq heq
    · exact le_of_lt (string_lt_iff_lex.mpr ((listLtB_iff_lex _ _).mp hlt))
  · intro h
    rcases lt_or_eq_of_le h with hlt | heq
    · exact Or.inr ((listLtB_iff_lex _ _).mpr (string_lt_iff_lex.mp hlt))
    · exact Or.inl heq

theorem strLe_total (a b : String) : strLeB a b = true ∨ strLeB b a = true := by
  rw [strLeB_iff, strLeB_iff]; exact le_total a b

theorem strLe_trans {a b c : String} (hab : strLeB a b = true)
    (hbc : strLeB b c = true) : strLeB a c = true := by
  rw [strLeB_iff] at hab hbc ⊢; exact le_trans hab hbc

theorem strLe_antisymm {a b : String} (hab : strLeB a b = true)
    (hba : strLeB b a = true) : a = b := by
  rw [strLeB_iff] at hab hba; exact le_antisymm hab hba

theorem pySortedSet_sorted (l : List String) :
    (pySortedSet l).Sorted (fun a b => strLeB a b = true) := by
  haveI : IsTotal String (fun a b => strLeB a b = true) := ⟨strLe_total⟩
  haveI : IsTrans String (fun a b => strLeB a b = true) :=
    ⟨fun _ _ _ => strLe_trans⟩
  exact List.sorted_insertionSort _ _

theorem pySortedSet_sorted_le (l : List String) :
    (pySortedSet l).Sorted (fun a b => a ≤ b) :=
  (pySortedSet_sorted l).imp (fun h => (strLeB_iff _ _).mp h)

theorem pySortedSet_nodup (l : List String) : (pySortedSet l).Nodup :=
  (List.perm_insertionSort _ _).nodup_iff.mpr (List.nodup_dedup l)

theorem pySortedSet_mem (l : List String) (x : String) :
    x ∈ pySortedSet l ↔ x ∈ l := by
  unfold pySortedSet
  rw [(List.perm_insertionSort _ _).mem_iff, List.mem_dedup]

theorem pySortedSet_perm_eq {l₁ l₂ : List String} (h : l₁.Perm l₂) :
    pySortedSet l₁ = pySortedSet l₂ := by
  haveI : IsAntisymm String (fun a b => strLeB a b = true) :=
    ⟨fun _ _ => strLe_antisymm⟩
  refine List.eq_of_perm_of_sorted ?_ (pySortedSet_sorted l₁) (pySortedSet_sorted l₂)
  exact (List.perm_insertionSort _ _).trans (h.dedup.trans
    (List.perm_insertionSort _ _).symm)

theorem fallback_yb_no_empty (pv : Option JVal) (hok : strValOk pv = true) :
    "" ∉ (if (pv.getD JVal.jnull).truthy then [(pv.getD JVal.jnull).pyStr] else []) := by
  intro hmem
  cases pv with
  | none => simp [JVal.truthy] at hmem
  | some v =>
    rw [Option.getD_some] at hmem
    cases v with
    | jstr s =>
      by_cases hs : s.isEmpty
      · simp [JVal.truthy, hs] at hmem
      · simp [JVal.truthy, hs, JVal.pyStr] at hmem
        exact hs (by rw [← hmem]; rfl)
    | jnull => simp [JVal.truthy] at hmem
    | jbool b =>
      simp only [strValOk, JVal.truthy, Bool.not_eq_true'] at hok
      simp [JVal.truthy, hok] at hmem
    | jint n =>
      simp only [strValOk, JVal.truthy, Bool.not_eq_true'] at hok
      simp [JVal.truthy, hok] at hmem
    | jarr xs =>
      simp only [strValOk, JVal.truthy, Bool.not_eq_true'] at hok
      simp [JVal.truthy, hok] at hmem
    | jobj kvs =>
      simp only [strValOk, JVal.truthy, Bool.not_eq_true'] at hok
      simp [JVal.truthy, hok] at hmem

theorem rawOk_yb (raw : JVal) (h : rawOk raw = true) :
    strValOk ((parcelOf raw).getKey "YearBuilt") = true := by
  simp only [rawOk, Bool.and_eq_true] at h
  exact h.2

/-- C3: the `year_built_list` of the summary built by `build_summary` is
sorted, duplicate free, and free of empty strings, and it is invariant
under any permutation of the subpart list (stated for two records with
permuted subparts and the same parcel-level `YearBuilt`). -/
theorem C3_year_built_list (raw raw₂ : JVal) (h : rawOk raw = true)
    (h₂ : rawOk raw₂ = true)
    (hperm : (subpartsOf raw).Perm (subpartsOf raw₂))
    (hyb : (parcelOf raw).getKey "YearBuilt" = (parcelOf raw₂).getKey "YearBuilt") :
    (build_summary raw).year_built_list.Sorted (fun a b => a ≤ b) ∧
    (build_summary raw).year_built_list.Nodup ∧
    "" ∉ (build_summary raw).year_built_list ∧
    (build_summary raw).year_built_list = (build_summary raw₂).year_built_list := by
  rw [year_built_list_def, year_built_list_def]
  refine ⟨pySortedSet_sorted_le _, pySortedSet_nodup _, ?_, ?_⟩
  · intro hmem
    rw [pySortedSet_mem] at hmem
    by_cases hsp : subpartsOf raw = []
    · have hie : (subpartsOf raw).isEmpty = true := by rw [hsp]; rfl
      rw [if_pos hie] at hmem
      exact fallback_yb_no_empty _ (rawOk_yb raw h) hmem
    · have hie := isEmpty_false_of_ne_nil hsp
      rw [hie] at hmem
      simp only [Bool.false_eq_true, if_false] at hmem
      simp [collectYB, List.mem_filter] at hmem
      exact absurd hmem.2 (by decide)
  · by_cases hsp : subpartsOf raw = []
    · rw [hsp] at hperm
      have hsp₂ : subpartsOf raw₂ = [] := hperm.symm.eq_nil
      have hie : (subpartsOf raw).isEmpty = true := by rw [hsp]; rfl
      have hie₂ : (subpartsOf raw₂).isEmpty = true := by rw [hsp₂]; rfl
      rw [if_pos hie, if_pos hie₂, hyb]
    · have hsp₂ : subpartsOf raw₂ ≠ [] := by
        intro hc
        rw [hc] at hperm
        exact hsp hperm.eq_nil
      have hie := isEmpty_false_of_ne_nil hsp
      have hie₂ := isEmpty_false_of_ne_nil hsp₂
      rw [hie, hie₂]
      simp only [Bool.false_eq_true, if_false]
      exact pySortedSet_perm_eq ((hperm.map ybOf).filter _)

/-- C3 witness: a three-subpart record and its rotation produce the same
sorted, deduplicated year list, here `["1987", "1999"]`. -/
theorem C3_year_built_list_witness :
    rawOk c3RawA = true ∧ rawOk c3RawB = true ∧
    (subpartsOf c3RawA).Perm (subpartsOf c3RawB) ∧
    (build_summary c3RawA).year_built_list = ["1987", "1999"] ∧
    (build_summary c3RawA).year_built_list = (build_summary c3RawB).year_built_list := by
  have hp : (subpartsOf c3RawA).Perm (subpartsOf c3RawB) :=
    (List.perm_append_singleton _ _).symm
  exact ⟨rfl, rfl, hp, rfl,
    (C3_year_built_list c3RawA c3RawB rfl rfl hp rfl).2.2.2⟩

theorem fetch_zoning_by_ain_def (ain : String) (raw zdata : JVal) :
    fetch_zoning_by_ain ain raw zdata =
      if ((((parcelOf raw).getKey "Latitude").getD .jnull).isNull
          || ((((parcelOf raw).getKey "Longitude").getD .jnull)).isNull) then
        .error "Parcel record does not contain Latitude/Longitude."
      else .ok
        { ain := pyOr (((parcelOf raw).getKey "AIN").getD .jnull) (.jstr ain)
          situs_address := pyJoin ", " (([strField (parcelOf raw) "SitusStreet",
            strField (parcelOf raw) "SitusCity",
            strField (parcelOf raw) "SitusZipCode"]).filter (fun s => !s.isEmpty))
          latitude := ((parcelOf raw).getKey "Latitude").getD .jnull
          longitude := ((parcelOf raw).getKey "Longitude").getD .jnull
          use_type := ((parcelOf raw).getKey "UseType").getD .jnull
          assessor_zoning_pdb := ((parcelOf raw).getKey "ZoningPDB").getD .jnull
          znet_zone := match fetch_zoning zdata with
            | some z => z.zone
            | none => .jnull
          znet_zone_description := match fetch_zoning zdata with
            | some z => z.zone_description
            | none => .jnull
          znet_zone_category := match fetch_zoning zdata with
            | some z => z.zone_category
            | none => .jnull
          znet_title_22_url := match fetch_zoning zdata with
            | some z => z.title_22_url
            | none => .jnull } := rfl

/-- C4: `fetch_zoning` returns `none` exactly when the feature list of the
upstream response is empty, and otherwise the complete four-attribute
record of the first feature (`zone`, description, category, Title 22
link); the record type carries all four fields, so no partial attribute
set can be produced. -/
theorem C4_fetch_zoning_first_feature (data : JVal) (h : featOk data = true) :
    (featuresOf data = [] → fetch_zoning data = none) ∧
    (∀ f rest, featuresOf data = f :: rest →
      fetch_zoning data = some
        { zone := (((f.getKey "attributes").getD (.jobj [])).getKey "ZONE").getD .jnull
          zone_description :=
            (((f.getKey "attributes").getD (.jobj [])).getKey "Z_DESC").getD .jnull
          zone_category :=
            (((f.getKey "attributes").getD (.jobj [])).getKey "Z_CATEGORY").getD .jnull
          title_22_url :=
            (((f.getKey "attributes").getD (.jobj [])).getKey "TITLE_22").getD .jnull }) := by
  constructor
  · intro he; unfold fetch_zoning; rw [he]
  · intro f rest hf; unfold fetch_zoning; rw [hf]

/-- C4 witness: a two-feature response yields exactly the first feature's
four attributes. -/
theorem C4_fetch_zoning_first_feature_witness :
    featOk c4Data = true ∧ featuresOf c4Data ≠ [] ∧
    fetch_zoning c4Data = some
      { zone := .jstr "LCR175", zone_description := .jstr "Residential"
        zone_category := .jstr "Residential", title_22_url := .jstr "http://e.x" } :=
  ⟨rfl, List.cons_ne_nil _ _,
    ((C4_fetch_zoning_first_feature c4Data rfl).2 _ _ rfl).trans rfl⟩

/-- C5 counterexample: a parcel record with latitude present and longitude
absent does not lack both coordinates, yet `fetch_zoning_by_ain` fails
with the validation error instead of proceeding, refuting the claim as
stated. -/
theorem C5_counterexample :
    (parcelOf c5CexRaw).getKey "Latitude" = some (.jint 34) ∧
    (parcelOf c5CexRaw).getKey "Longitude" = none ∧
    fetch_zoning_by_ain "123" c5CexRaw (.jobj []) =
      .error "Parcel record does not contain Latitude/Longitude." :=
  ⟨rfl, rfl, rfl⟩

/-- C5 (amended): `fetch_zoning_by_ain` fails with the validation error
exactly when the parcel record lacks either coordinate (absent or null),
and otherwise merges the assessor fields with the result of the spatial
zoning query into the combined record (amendment forced by
`C5_counterexample`: the code tests `lat is None or lon is None`, not
both-missing). -/
theorem C5_coordinate_validation (ain : String) (raw zdata : JVal)
    (h : zoningRawOk raw = true) (hf : featOk zdata = true) :
    (((((parcelOf raw).getKey "Latitude").getD .jnull).isNull
        || ((((parcelOf raw).getKey "Longitude").getD .jnull)).isNull) = true →
      fetch_zoning_by_ain ain raw zdata =
        .error "Parcel record does not contain Latitude/Longitude.") ∧
    (((((parcelOf raw).getKey "Latitude").getD .jnull).isNull
        || ((((parcelOf raw).getKey "Longitude").getD .jnull)).isNull) = false →
      ∃ r, fetch_zoning_by_ain ain raw zdata = .ok r ∧
        r.latitude = ((parcelOf raw).getKey "Latitude").getD .jnull ∧
        r.longitude = ((parcelOf raw).getKey "Longitude").getD .jnull ∧
        r.ain = pyOr (((parcelOf raw).getKey "AIN").getD .jnull) (.jstr ain) ∧
        r.use_type = ((parcelOf raw).getKey "UseType").getD .jnull ∧
        r.assessor_zoning_pdb = ((parcelOf raw).getKey "ZoningPDB").getD .jnull ∧
        (fetch_zoning zdata = none →
          r.znet_zone = .jnull ∧ r.znet_zone_description = .jnull ∧
          r.znet_zone_category = .jnull ∧ r.znet_title_22_url = .jnull) ∧
        (∀ z, fetch_zoning zdata = some z →
          r.znet_zone = z.zone ∧ r.znet_zone_description = z.zone_description ∧
          r.znet_zone_category = z.zone_category ∧
          r.znet_title_22_url = z.title_22_url)) := by
  constructor
  · intro hcond
    rw [fetch_zoning_by_ain_def, if_pos hcond]
  · intro hcond
    rw [fetch_zoning_by_ain_def, if_neg (by rw [hcond]; exact Bool.false_ne_true)]
    refine ⟨_, rfl, rfl, rfl, rfl, rfl, rfl, ?_, ?_⟩
    · intro hz
      rw [hz]
      exact ⟨rfl, rfl, rfl, rfl⟩
    · intro z hz
      rw [hz]
      exact ⟨rfl, rfl, rfl, rfl⟩

/-- C5 witness: with both coordinates present the composition succeeds and
carries the parcel coordinates. -/
theorem C5_coordinate_validation_witness :
    zoningRawOk c5Raw = true ∧ featOk c4Data = true ∧
    (∃ r, fetch_zoning_by_ain "123" c5Raw c4Data = .ok r ∧
      r.latitude = .jint 34 ∧ r.znet_zone = .jstr "LCR175") := by
  obtain ⟨r, hr, hlat, hlon, hain, hu, hz, hnone, hsome⟩ :=
    (C5_coordinate_validation "123" c5Raw c4Data rfl rfl).2 rfl
  exact ⟨rfl, rfl, r, hr, hlat.trans rfl, ((hsome _ rfl).1).trans rfl⟩

theorem rowStep_spec (house street : String) (row : JVal) (h : rowOk row = true) :
    rowStep house street row = .ok (specRowMatch house street row) := by
  simp only [rowOk, Bool.and_eq_true] at h
  obtain ⟨hobj, hstreet⟩ := h
  unfold rowStep specRowMatch
  rw [hobj]
  simp only [Bool.not_true, Bool.false_eq_true, if_false]
  by_cases hh : ((row.getKey "house_number").getD JVal.jnull).eqStr house = true
  · rw [hh]
    simp only [Bool.not_true, Bool.false_eq_true, if_false, Bool.true_and]
    cases hse : row.getKey "street_name" with
    | none => rfl
    | some v =>
      rw [hse] at hstreet
      cases v with
      | jstr s => rfl
      | jnull => simp at hstreet
      | jbool b => simp at hstreet
      | jint n => simp at hstreet
      | jarr xs => simp at hstreet
      | jobj kvs => simp at hstreet
  · simp only [Bool.not_eq_true] at hh
    rw [hh]
    simp only [Bool.not_false, if_true, Bool.false_and]

theorem scanRows_no_match (house street : String) (rows : List JVal)
    (hok : rows.all rowOk = true)
    (hnm : rows.all (fun r => !specRowMatch house street r) = true) :
    scanRows house street rows = .jnull := by
  induction rows with
  | nil => rfl
  | cons r rest ih =>
    simp only [List.all_cons, Bool.and_eq_true] at hok hnm
    have hr : specRowMatch house street r = false := by
      have := hnm.1; simpa using this
    show (match rowStep house street r with
      | .error _ => JVal.jnull
      | .ok true => (r.getKey "ain").getD .jnull
      | .ok false => scanRows house street rest) = JVal.jnull
    rw [rowStep_spec house street r hok.1, hr]
    exact ih hok.2 hnm.2

theorem scanRows_first_match (house street : String) (pre : List JVal)
    (r : JVal) (post : List JVal)
    (hok : (pre ++ r :: post).all rowOk = true)
    (hnm : pre.all (fun q => !specRowMatch house street q) = true)
    (hm : specRowMatch house street r = true) :
    scanRows house street (pre ++ r :: post) = (r.getKey "ain").getD .jnull := by
  induction pre with
  | nil =>
    simp only [List.nil_append, List.all_cons, Bool.and_eq_true] at hok
    show (match rowStep house street r with
      | .error _ => JVal.jnull
      | .ok true => (r.getKey "ain").getD .jnull
      | .ok false => scanRows house street post) = (r.getKey "ain").getD .jnull
    rw [rowStep_spec house street r hok.1, hm]
  | cons q qre ih =>
    simp only [List.cons_append, List.all_cons, Bool.and_eq_true] at hok hnm
    have hq : specRowMatch house street q = false := by
      have := hnm.1; simpa using this
    show (match rowStep house street q with
      | .error _ => JVal.jnull
      | .ok true => (q.getKey "ain").getD .jnull
      | .ok false => scanRows house street (qre ++ r :: post)) =
        (r.getKey "ain").getD .jnull
    rw [rowStep_spec house street q hok.1, hq]
    exact ih hok.2 hnm.2

/-- C6: the resolver returns the `ain` of the first row satisfying exact
house-number equality and case-insensitive street-name-prefix match
(`specRowMatch`), returns the null result when no row matches, and returns
the same null result when the upstream request fails (`resp = none`); the
two failure causes produce identical observable results. -/
theorem C6_resolver_first_match (house street : String) (rows : List JVal)
    (hok : rows.all rowOk = true) :
    resolve_address_to_ain house street none = .jnull ∧
    (rows.all (fun r => !specRowMatch house street r) = true →
      resolve_address_to_ain house street (some (.jobj [("rows", .jarr rows)])) = .jnull ∧
      resolve_address_to_ain house street (some (.jobj [("rows", .jarr rows)])) =
        resolve_address_to_ain house street none) ∧
    (∀ pre r post, rows = pre ++ r :: post →
      pre.all (fun q => !specRowMatch house street q) = true →
      specRowMatch house street r = true →
      resolve_address_to_ain house street (some (.jobj [("rows", .jarr rows)])) =
        (r.getKey "ain").getD .jnull) := by
  refine ⟨rfl, ?_, ?_⟩
  · intro hnm
    have hs : scanRows house street rows = .jnull :=
      scanRows_no_match house street rows hok hnm
    exact ⟨hs, hs⟩
  · intro pre r post hsplit hnm hm
    show scanRows house street (rowsOf (.jobj [("rows", .jarr rows)])) = _
    have hrows : rowsOf (.jobj [("rows", .jarr rows)]) = rows := rfl
    rw [hrows, hsplit]
    exact scanRows_first_match house street pre r post
      (by rw [← hsplit]; exact hok) hnm hm

/-- C6 witness: with one non-matching row before a matching one, the
matching row's AIN is returned; and the no-match and network-failure
results coincide. -/
theorem C6_resolver_first_match_witness :
    c6Rows.all rowOk = true ∧
    resolve_address_to_ain "100" "Cosmo" (some (.jobj [("rows", .jarr c6Rows)])) =
      .jstr "222" ∧
    resolve_address_to_ain "100" "Nowhere" (some (.jobj [("rows", .jarr c6Rows)])) =
      resolve_address_to_ain "100" "Nowhere" none :=
  ⟨rfl,
    ((C6_resolver_first_match "100" "Cosmo" c6Rows rfl).2.2
      [.jobj [("house_number", .jstr "99"), ("street_name", .jstr "COSMO ST"),
        ("ain", .jstr "111")]]
      (.jobj [("house_number", .jstr "100"), ("street_name", .jstr "cosmo st"),
        ("ain", .jstr "222")])
      [] rfl rfl rfl).trans rfl,
    ((C6_resolver_first_match "100" "Nowhere" c6Rows rfl).2.1 rfl).2⟩

/-- C7: the batch endpoint produces exactly one entry per requested AIN in
request order, each entry determined only by its own AIN (so one failure
cannot affect other entries); an AIN whose parcel or zoning lookup raises
yields an entry with the exception message in the error field and null
parcel and zoning payloads, and a fully successful AIN yields the two
payloads and no error field. -/
theorem C7_batch_per_ain (po : String → Except String Summary)
    (zo : String → Except String ZoningByAinResult) (ains : List String) :
    (combo_batch po zo ains).length = ains.length ∧
    combo_batch po zo ains = ains.map (comboItem po zo) ∧
    (∀ i : Nat, (combo_batch po zo ains)[i]? = (ains[i]?).map (comboItem po zo)) ∧
    (∀ ain, (comboItem po zo ain).ain = ain) ∧
    (∀ ain e, po ain = .error e →
      comboItem po zo ain =
        { ain := ain, parcel := none, zoning := none, error := some e }) ∧
    (∀ ain pcl e, po ain = .ok pcl → zo ain = .error e →
      comboItem po zo ain =
        { ain := ain, parcel := none, zoning := none, error := some e }) ∧
    (∀ ain pcl z, po ain = .ok pcl → zo ain = .ok z →
      comboItem po zo ain =
        { ain := ain, parcel := some pcl, zoning := some z, error := none }) := by
  have hmap : ∀ l : List String, combo_batch po zo l = l.map (comboItem po zo) := by
    intro l
    induction l with
    | nil => rfl
    | cons a t ih => simp [combo_batch, ih]
  refine ⟨by rw [hmap]; simp, hmap ains, ?_, ?_, ?_, ?_, ?_⟩
  · intro i
    rw [hmap]
    exact List.getElem?_map _ _ _
  · intro ain
    unfold comboItem
    cases hp : po ain with
    | error e => rfl
    | ok pcl =>
      cases hz : zo ain with
      | error e => rfl
      | ok z => rfl
  · intro ain e hp
    unfold comboItem
    rw [hp]
  · intro ain pcl e hp hz
    unfold comboItem
    rw [hp, hz]
  · intro ain pcl z hp hz
    unfold comboItem
    rw [hp, hz]

/-- C7 witness: the request `["A", "B"]` where the parcel lookup for "B"
raises produces exactly two entries, the second with the error message and
null payloads. -/
theorem C7_batch_per_ain_witness :
    (combo_batch c7Po c7Zo ["A", "B"]).length = 2 ∧
    comboItem c7Po c7Zo "B" =
      { ain := "B", parcel := none, zoning := none
        error := some "Assessor API error: boom" } ∧
    combo_batch c7Po c7Zo ["A", "B"] =
      [comboItem c7Po c7Zo "A", comboItem c7Po c7Zo "B"] :=
  ⟨(C7_batch_per_ain c7Po c7Zo ["A", "B"]).1.trans rfl,
    (C7_batch_per_ain c7Po c7Zo ["A", "B"]).2.2.2.2.1 "B" _ rfl,
    (C7_batch_per_ain c7Po c7Zo ["A", "B"]).2.1.trans rfl⟩

theorem ovGetD_eq_sentinel (ov : Overlay) (sec key : String)
    (h : ovGet ov sec key = none) : ovGetD ov sec key = "Not found" := by
  simp [ovGetD, h]

theorem ovGetD_eq_val (ov : Overlay) (sec key v : String)
    (h : ovGet ov sec key = some v) : ovGetD ov sec key = v := by
  simp [ovGetD, h]

/-- C8: in the flat record produced by the final remapping step, each of
the 18 page-derived overlay and hazard attributes independently equals the
value found at its fixed per-section path, and equals the sentinel string
"Not found" whenever no value exists at that path; the remaining two
fields are source constants. -/
theorem C8_remap_sentinel (ov : Overlay) :
    ((ovGet ov "Planning_and_Zoning" "General_Plan_Land_Use" = none →
        (remap_clean ov).General_Plan_Land_Use = "Not found") ∧
      (∀ v, ovGet ov "Planning_and_Zoning" "General_Plan_Land_Use" = some v →
        (remap_clean ov).General_Plan_Land_Use = v)) ∧
    ((ovGet ov "Jurisdictional" "Community_Plan_Area" = none →
        (remap_clean ov).Community_Plan_Area = "Not found") ∧
      (∀ v, ovGet ov "Jurisdictional" "Community_Plan_Area" = some v →
        (remap_clean ov).Community_Plan_Area = v)) ∧
    ((ovGet ov "Seismic_Hazards" "Liquefaction" = none →
        (remap_clean ov).Liquefaction_Zone = "Not found") ∧
      (∀ v, ovGet ov "Seismic_Hazards" "Liquefaction" = some v →
        (remap_clean ov).Liquefaction_Zone = v)) ∧
    ((ovGet ov "Additional" "Flood_Zone" = none →
        (remap_clean ov).Flood_Zone = "Not found") ∧
      (∀ v, ovGet ov "Additional" "Flood_Zone" = some v →
        (remap_clean ov).Flood_Zone = v)) ∧
    ((ovGet ov "Planning_and_Zoning" "Specific_Plan_Area" = none →
        (remap_clean ov).Specific_Plan = "Not found") ∧
      (∀ v, ovGet ov "Planning_and_Zoning" "Specific_Plan_Area" = some v →
        (remap_clean ov).Specific_Plan = v)) ∧
    ((ovGet ov "Planning_and_Zoning" "High_Quality_Transit_Corridor_within_1_2_mile" = none →
        (remap_clean ov).High_Quality_Transit_Corridor_within_half_mile = "Not found") ∧
      (∀ v, ovGet ov "Planning_and_Zoning" "High_Quality_Transit_Corridor_within_1_2_mile" = some v →
        (remap_clean ov).High_Quality_Transit_Corridor_within_half_mile = v)) ∧
    ((ovGet ov "Seismic_Hazards" "Alquist_Priolo_Fault_Zone" = none →
        (remap_clean ov).Alquist_Priolo_Fault_Zone = "Not found") ∧
      (∀ v, ovGet ov "Seismic_Hazards" "Alquist_Priolo_Fault_Zone" = some v →
        (remap_clean ov).Alquist_Priolo_Fault_Zone = v)) ∧
    ((ovGet ov "Planning_and_Zoning" "Hillside_Area_Zoning_Code" = none →
        (remap_clean ov).Hillside_Area_Zoning_Code = "Not found") ∧
      (∀ v, ovGet ov "Planning_and_Zoning" "Hillside_Area_Zoning_Code" = some v →
        (remap_clean ov).Hillside_Area_Zoning_Code = v)) ∧
    ((ovGet ov "Planning_and_Zoning" "Special_Land_Use_Zoning" = none →
        (remap_clean ov).Special_Land_Use_or_Zoning = "Not found") ∧
      (∀ v, ovGet ov "Planning_and_Zoning" "Special_Land_Use_Zoning" = some v →
        (remap_clean ov).Special_Land_Use_or_Zoning = v)) ∧
    ((ovGet ov "Planning_and_Zoning" "Historic_Preservation_Review" = none →
        (remap_clean ov).Historic_Preservation_Review = "Not found") ∧
      (∀ v, ovGet ov "Planning_and_Zoning" "Historic_Preservation_Review" = some v →
        (remap_clean ov).Historic_Preservation_Review = v)) ∧
    ((ovGet ov "Planning_and_Zoning" "HistoricPlacesLA" = none →
        (remap_clean ov).HistoricPlacesLA = "Not found") ∧
      (∀ v, ovGet ov "Planning_and_Zoning" "HistoricPlacesLA" = some v →
        (remap_clean ov).HistoricPlacesLA = v)) ∧
    ((ovGet ov "Planning_and_Zoning" "CDO_Community_Design_Overlay" = none →
        (remap_clean ov).CDO_Community_Design_Overlay = "Not found") ∧
      (∀ v, ovGet ov "Planning_and_Zoning" "CDO_Community_Design_Overlay" = some v →
        (remap_clean ov).CDO_Community_Design_Overlay = v)) ∧
    ((ovGet ov "Planning_and_Zoning" "RFA_Residential_Floor_Area_District" = none →
        (remap_clean ov).RFA_Residential_Floor_Area_District = "Not found") ∧
      (∀ v, ovGet ov "Planning_and_Zoning" "RFA_Residential_Floor_Area_District" = some v →
        (remap_clean ov).RFA_Residential_Floor_Area_District = v)) ∧
    ((ovGet ov "Additional" "Airport_Hazard" = none →
        (remap_clean ov).Airport_Hazard = "Not found") ∧
      (∀ v, ovGet ov "Additional" "Airport_Hazard" = some v →
        (remap_clean ov).Airport_Hazard = v)) ∧
    ((ovGet ov "Additional" "Coastal_Zone" = none →
        (remap_clean ov).Coastal_Zone = "Not found") ∧
      (∀ v, ovGet ov "Additional" "Coastal_Zone" = some v →
        (remap_clean ov).Coastal_Zone = v)) ∧
    ((ovGet ov "Additional" "Very_High_Fire_Hazard_Severity_Zone" = none →
        (remap_clean ov).Very_High_Fire_Hazard_Severity_Zone = "Not found") ∧
      (∀ v, ovGet ov "Additional" "Very_High_Fire_Hazard_Severity_Zone" = some v →
        (remap_clean ov).Very_High_Fire_Hazard_Severity_Zone = v)) ∧
    ((ovGet ov "Additional" "Special_Grading_Area_BOE_Basic_Grid_Map_A_13372" = none →
        (remap_clean ov).Special_Grading_Area = "Not found") ∧
      (∀ v, ovGet ov "Additional" "Special_Grading_Area_BOE_Basic_Grid_Map_A_13372" = some v →
        (remap_clean ov).Special_Grading_Area = v)) ∧
    ((ovGet ov "Environmental" "Wildland_Urban_Interface_WUI" = none →
        (remap_clean ov).Wildland_Urban_Interface_WUI = "Not found") ∧
      (∀ v, ovGet ov "Environmental" "Wildland_Urban_Interface_WUI" = some v →
        (remap_clean ov).Wildland_Urban_Interface_WUI = v)) ∧
    (remap_clean ov).Occupancy = "Not listed in ZIMAS" ∧
    (remap_clean ov).California_Building_Codes = "Not listed in ZIMAS" :=
  ⟨⟨fun h => ovGetD_eq_sentinel _ _ _ h, fun v h => ovGetD_eq_val _ _ _ v h⟩,
   ⟨fun h => ovGetD_eq_sentinel _ _ _ h, fun v h => ovGetD_eq_val _ _ _ v h⟩,
   ⟨fun h => ovGetD_eq_sentinel _ _ _ h, fun v h => ovGetD_eq_val _ _ _ v h⟩,
   ⟨fun h => ovGetD_eq_sentinel _ _ _ h, fun v h => ovGetD_eq_val _ _ _ v h⟩,
   ⟨fun h => ovGetD_eq_sentinel _ _ _ h, fun v h => ovGetD_eq_val _ _ _ v h⟩,
   ⟨fun h => ovGetD_eq_sentinel _ _ _ h, fun v h => ovGetD_eq_val _ _ _ v h⟩,
   ⟨fun h => ovGetD_eq_sentinel _ _ _ h, fun v h => ovGetD_eq_val _ _ _ v h⟩,
   ⟨fun h => ovGetD_eq_sentinel _ _ _ h, fun v h => ovGetD_eq_val _ _ _ v h⟩,
   ⟨fun h => ovGetD_eq_sentinel _ _ _ h, fun v h => ovGetD_eq_val _ _ _ v h⟩,
   ⟨fun h => ovGetD_eq_sentinel _ _ _ h, fun v h => ovGetD_eq_val _ _ _ v h⟩,
   ⟨fun h => ovGetD_eq_sentinel _ _ _ h, fun v h => ovGetD_eq_val _ _ _ v h⟩,
   ⟨fun h => ovGetD_eq_sentinel _ _ _ h, fun v h => ovGetD_eq_val _ _ _ v h⟩,
   ⟨fun h => ovGetD_eq_sentinel _ _ _ h, fun v h => ovGetD_eq_val _ _ _ v h⟩,
   ⟨fun h => ovGetD_eq_sentinel _ _ _ h, fun v h => ovGetD_eq_val _ _ _ v h⟩,
   ⟨fun h => ovGetD_eq_sentinel _ _ _ h, fun v h => ovGetD_eq_val _ _ _ v h⟩,
   ⟨fun h => ovGetD_eq_sentinel _ _ _ h, fun v h => ovGetD_eq_val _ _ _ v h⟩,
   ⟨fun h => ovGetD_eq_sentinel _ _ _ h, fun v h => ovGetD_eq_val _ _ _ v h⟩,
   ⟨fun h => ovGetD_eq_sentinel _ _ _ h, fun v h => ovGetD_eq_val _ _ _ v h⟩,
   rfl, rfl⟩

/-- C8 witness: on an empty overlay the first attribute is the sentinel;
on an overlay holding only a flood zone, that attribute carries the stored
value and an unrelated attribute is the sentinel. -/
theorem C8_remap_sentinel_witness :
    (remap_clean ([] : Overlay)).General_Plan_Land_Use = "Not found" ∧
    (remap_clean c8Ov).Flood_Zone = "Zone X" ∧
    (remap_clean c8Ov).Airport_Hazard = "Not found" :=
  ⟨(C8_remap_sentinel []).1.1 rfl,
   (C8_remap_sentinel c8Ov).2.2.2.1.2 "Zone X" rfl,
   (C8_remap_sentinel c8Ov).2.2.2.2.2.2.2.2.2.2.2.2.2.1.1 rfl⟩

/-- C9: every scraping call ends with the browser session closed, on the
success path and on every error path alike, and the returned value is
either the normalized record or an error descriptor — the result type has
exactly these two forms, so never both — and in both forms the attached
debug context echoes back the input house number and street name. -/
theorem C9_scraper_close_and_echo (house street : String) (env : PageEnv) :
    (scrape_zimas_ultra house street env).browserClosed = true ∧
    (∀ e d, (scrape_zimas_ultra house street env).result = .err e d →
      d.house_number = house ∧ d.street_name_input = street) ∧
    (∀ c d, (scrape_zimas_ultra house street env).result = .ok c d →
      d.house_number = house ∧ d.street_name_input = street) := by
  unfold scrape_zimas_ultra
  cases env.navStep with
  | some e =>
    refine ⟨rfl, ?_, ?_⟩
    · intro e' d hd
      cases hd
      exact ⟨rfl, rfl⟩
    · intro c d hd
      cases hd
  | none =>
    cases env.fillStep with
    | some e =>
      refine ⟨rfl, ?_, ?_⟩
      · intro e' d hd
        cases hd
        exact ⟨rfl, rfl⟩
      · intro c d hd
        cases hd
    | none =>
      cases runSections env sectionTabs with
      | error e =>
        refine ⟨rfl, ?_, ?_⟩
        · intro e' d hd
          cases hd
          exact ⟨rfl, rfl⟩
        · intro c d hd
          cases hd
      | ok ov =>
        cases env.csvStep with
        | some e =>
          refine ⟨rfl, ?_, ?_⟩
          · intro e' d hd
            cases hd
            exact ⟨rfl, rfl⟩
          · intro c d hd
            cases hd
        | none =>
          refine ⟨rfl, ?_, ?_⟩
          · intro e' d hd
            cases hd
          · intro c d hd
            cases hd
            exact ⟨rfl, rfl⟩

/-- C9 witness: a navigation failure yields the error descriptor echoing
the inputs with the browser closed, and a failure-free session yields the
record with the same echoed debug context. -/
theorem C9_scraper_close_and_echo_witness :
    (scrape_zimas_ultra "100" "Main St" c9Env).result =
      .err "net down" (DebugInfo.mk "100" "Main St" "Main") ∧
    (scrape_zimas_ultra "100" "Main St" c9Env).browserClosed = true ∧
    ("100" = "100" ∧ "Main St" = "Main St") ∧
    (∃ c, (scrape_zimas_ultra "100" "Main St" c9EnvOk).result =
      .ok c (DebugInfo.mk "100" "Main St" "Main")) :=
  ⟨rfl, (C9_scraper_close_and_echo "100" "Main St" c9Env).1,
    (C9_scraper_close_and_echo "100" "Main St" c9Env).2.1 "net down"
      (DebugInfo.mk "100" "Main St" "Main") rfl,
    ⟨_, rfl⟩⟩
